import Mathlib

/-!
Verification development for the quantum-safe-mesh repository: a shallow
embedding of the authentication / key-exchange layer (pkg/pqc, pkg/models,
cmd/auth, cmd/gateway, and the backend service) together with theorems about
the registry, signing, verification and canonicalization behaviour.

Byte strings are modelled as `List Nat` (one entry per byte); JSON wire text is
modelled as `List Char` (every byte produced here is ASCII, so the two views
agree up to `Char.toNat`).  The external cryptographic primitives from
cloudflare/circl (Dilithium mode3 and Kyber768) are out of scope of the
repository and are modelled symbolically: key material is identified by a
natural number, a signature is a fixed-size blob determined by the signing key
identity and the exact message bytes (the standard EUF-CMA idealization), and
verification succeeds exactly on that blob.  All sizes are the mode3/kyber768
parameter-set constants used by the repository.
-/

namespace QuantumSafeMesh

/-- Byte strings (Go `[]byte`), one natural number per byte. -/
abbrev Bytes := List Nat

/-- JSON wire text (Go `[]byte` holding UTF-8/ASCII text). -/
abbrev Chars := List Char

/-- View wire text as the byte string that gets signed (ASCII code points). -/
def toBytes (s : Chars) : Bytes := s.map Char.toNat

/-- Go map lookup `m[k]`, with the map modelled as an association list. -/
def mapLookup {α : Type} (m : List (String × α)) (k : String) : Option α :=
  match m with
  | [] => none
  | (k', v) :: rest => if k' = k then some v else mapLookup rest k

/-- Go map update `m[k] = v`.  The new binding shadows any old one, which is
observationally the same as overwriting with respect to `mapLookup`. -/
def mapInsert {α : Type} (m : List (String × α)) (k : String) (v : α) :
    List (String × α) :=
  (k, v) :: m

theorem mapLookup_mapInsert_self {α : Type} (m : List (String × α)) (k : String) (v : α) :
    mapLookup (mapInsert m k v) k = some v := by
  simp [mapLookup, mapInsert]

theorem mapLookup_mapInsert_ne {α : Type} (m : List (String × α)) (k k' : String) (v : α)
    (h : k ≠ k') : mapLookup (mapInsert m k v) k' = mapLookup m k' := by
  simp [mapLookup, mapInsert, h]

/-! ### Symbolic model of the external circl primitives

The repository treats the signature scheme and the KEM as opaque primitives
with fixed-size inputs and outputs (spec §1, §6).  We model them accordingly:
a mode3/kyber768 key is identified by a natural number; serialized key
material is that identifier followed by zero padding up to the parameter-set
size, and a signature is a blob whose first entry injectively packs the key
identity together with the signed bytes. -/

/-- `mode3.PublicKeySize` (Dilithium3). -/
def mode3PublicKeySize : Nat := 1952

/-- `mode3.PrivateKeySize` (Dilithium3). -/
def mode3PrivateKeySize : Nat := 4032

/-- `mode3.SignatureSize` (Dilithium3). -/
def mode3SignatureSize : Nat := 3309

/-- Packs a byte list into one natural number; injective on lists whose
entries are below `2 ^ 21` (every byte and every `Char` code point is). -/
def packBytes (l : Bytes) : Nat := l.foldl (fun acc a => acc * 2 ^ 21 + a) 1

/-- Serialized mode3 public key for key identity `k` (`PublicKey.Bytes()`). -/
def mode3PubBytes (k : Nat) : Bytes := k :: List.replicate (mode3PublicKeySize - 1) 0

/-- Serialized mode3 private key for key identity `k` (`PrivateKey.Bytes()`). -/
def mode3PrivBytes (k : Nat) : Bytes := k :: List.replicate (mode3PrivateKeySize - 1) 0

/-- Model of `mode3.SignTo`: the (deterministic) fixed-size signature of
`data` under the private key with identity `k`. -/
def mode3Sig (k : Nat) (data : Bytes) : Bytes :=
  Nat.pair k (packBytes data) :: List.replicate (mode3SignatureSize - 1) 0

/-- Model of `mode3.Verify`: succeeds exactly on the signature `mode3SignTo`
produces for this key and message (idealized unforgeability).  In particular a
byte string of the wrong length is never a valid signature, matching circl's
explicit length check inside `Verify`. -/
def mode3VerifyKey (k : Nat) (data sig : Bytes) : Bool :=
  decide (sig = mode3Sig k data)

/-- Model of `mode3.PublicKey.UnmarshalBinary`: circl only rejects byte
strings of the wrong length; any correctly-sized string parses to a key. -/
def mode3UnmarshalBinaryPub (b : Bytes) : Option Nat :=
  if b.length = mode3PublicKeySize then some b.headI else none

/-- Model of `mode3.PrivateKey.UnmarshalBinary`. -/
def mode3UnmarshalBinaryPriv (b : Bytes) : Option Nat :=
  if b.length = mode3PrivateKeySize then some b.headI else none

theorem mode3Sig_length (k : Nat) (data : Bytes) :
    (mode3Sig k data).length = mode3SignatureSize := by
  simp only [mode3Sig, List.length_cons, List.length_replicate]
  rfl

theorem mode3PubBytes_length (k : Nat) : (mode3PubBytes k).length = mode3PublicKeySize := by
  simp only [mode3PubBytes, List.length_cons, List.length_replicate]
  rfl

theorem mode3PrivBytes_length (k : Nat) : (mode3PrivBytes k).length = mode3PrivateKeySize := by
  simp only [mode3PrivBytes, List.length_cons, List.length_replicate]
  rfl

/-- Kyber768 public key size (the literal `1184` in kyber.go). -/
def kyber768PublicKeySize : Nat := 1184

/-- Kyber768 private key size (the literal `2400` in kyber.go). -/
def kyber768PrivateKeySize : Nat := 2400

/-- Kyber768 ciphertext size (the literal `1088` in kyber.go). -/
def kyber768CiphertextSize : Nat := 1088

/-- Kyber768 shared secret size (the literal `32` in kyber.go). -/
def kyber768SharedKeySize : Nat := 32

/-- Serialized Kyber768 public key for key identity `k`. -/
def kyber768PubBytes (k : Nat) : Bytes :=
  k :: List.replicate (kyber768PublicKeySize - 1) 0

/-- Serialized Kyber768 private key for key identity `k`. -/
def kyber768PrivBytes (k : Nat) : Bytes :=
  k :: List.replicate (kyber768PrivateKeySize - 1) 0

/-- Model of `kyber768.PublicKey.EncapsulateTo` (ciphertext component):
deterministic in the receiver's key identity and the random seed. -/
def kyber768Ciphertext (k seed : Nat) : Bytes :=
  Nat.pair k seed :: List.replicate (kyber768CiphertextSize - 1) 0

/-- Model of `kyber768.PublicKey.EncapsulateTo` (shared secret component). -/
def kyber768Shared (k seed : Nat) : Bytes :=
  Nat.pair k seed :: List.replicate (kyber768SharedKeySize - 1) 0

/-- Model of `kyber768.PrivateKey.DecapsulateTo` on a correctly-sized
ciphertext: the derived 32-byte secret, a deterministic function of the
private key and the ciphertext bytes. -/
def kyber768Decap (sk : Nat) (ct : Bytes) : Bytes :=
  Nat.pair sk (packBytes ct) :: List.replicate (kyber768SharedKeySize - 1) 0

/-! ### pkg/pqc: dilithium.go -/

/-- `pqc.DilithiumKeyPair` (dilithium.go:13-16); the two circl key values are
modelled by their key identities. -/
structure DilithiumKeyPair where
  publicKey : Nat
  privateKey : Nat
deriving DecidableEq

/-- `pqc.GenerateDilithiumKeyPair` (dilithium.go:18-36): `mode3.GenerateKey`
returns a matching public/private pair; the pair is determined by the
randomness consumed, modelled as `seed`. -/
def GenerateDilithiumKeyPair (seed : Nat) : DilithiumKeyPair :=
  { publicKey := seed, privateKey := seed }

/-- `(*DilithiumKeyPair).Sign` (dilithium.go:38-49).  The Go function also
returns an error, which is always nil. -/
def DilithiumKeyPair.Sign (d : DilithiumKeyPair) (data : Bytes) : Bytes :=
  mode3Sig d.privateKey data

/-- `(*DilithiumKeyPair).GetPublicKeyBytes` (dilithium.go:51-53). -/
def DilithiumKeyPair.GetPublicKeyBytes (d : DilithiumKeyPair) : Bytes :=
  mode3PubBytes d.publicKey

/-- `(*DilithiumKeyPair).GetPrivateKeyBytes` (dilithium.go:55-57). -/
def DilithiumKeyPair.GetPrivateKeyBytes (d : DilithiumKeyPair) : Bytes :=
  mode3PrivBytes d.privateKey

/-- The distinct error results of `pqc.VerifyDilithiumSignature`
(dilithium.go:59-84): the pre-verification size check, the unmarshal failure,
and the verification failure `"invalid signature"`. -/
inductive DilithiumVerifyError
  | invalidPublicKeySize (expected got : Nat)
  | unmarshalFailed
  | invalidSignature
deriving DecidableEq

/-- `pqc.VerifyDilithiumSignature` (dilithium.go:59-84); `none` models the nil
error (success). -/
def VerifyDilithiumSignature (publicKeyBytes data signature : Bytes) :
    Option DilithiumVerifyError :=
  if publicKeyBytes.length ≠ mode3PublicKeySize then
    some (.invalidPublicKeySize mode3PublicKeySize publicKeyBytes.length)
  else
    match mode3UnmarshalBinaryPub publicKeyBytes with
    | none => some .unmarshalFailed
    | some publicKey =>
      if mode3VerifyKey publicKey data signature then none
      else some .invalidSignature

/-- The error results of `pqc.LoadDilithiumKeyPair` (dilithium.go:101-127). -/
inductive LoadKeyError
  | invalidPublicKeySize (expected got : Nat)
  | invalidPrivateKeySize (expected got : Nat)
  | unmarshalFailed
deriving DecidableEq

/-- `pqc.LoadDilithiumKeyPair` (dilithium.go:101-127): both length checks,
then both unmarshals. -/
def LoadDilithiumKeyPair (publicKeyBytes privateKeyBytes : Bytes) :
    Except LoadKeyError DilithiumKeyPair :=
  if publicKeyBytes.length ≠ mode3PublicKeySize then
    .error (.invalidPublicKeySize mode3PublicKeySize publicKeyBytes.length)
  else if privateKeyBytes.length ≠ mode3PrivateKeySize then
    .error (.invalidPrivateKeySize mode3PrivateKeySize privateKeyBytes.length)
  else
    match mode3UnmarshalBinaryPub publicKeyBytes,
        mode3UnmarshalBinaryPriv privateKeyBytes with
    | some publicKey, some privateKey =>
      .ok { publicKey := publicKey, privateKey := privateKey }
    | _, _ => .error .unmarshalFailed

/-! ### pkg/pqc: kyber.go -/

/-- `pqc.KyberKeyPair` (kyber.go:12-15). -/
structure KyberKeyPair where
  publicKey : Nat
  privateKey : Nat
deriving DecidableEq

/-- `pqc.GenerateKyberKeyPair` (kyber.go:17-35). -/
def GenerateKyberKeyPair (seed : Nat) : KyberKeyPair :=
  { publicKey := seed, privateKey := seed }

/-- `(*KyberKeyPair).GetPublicKeyBytes` (kyber.go:37-40). -/
def KyberKeyPair.GetPublicKeyBytes (k : KyberKeyPair) : Bytes :=
  kyber768PubBytes k.publicKey

/-- A run-time fault (Go panic) raised inside the circl library; the
repository's own code does not catch it. -/
inductive KyberFault
  | ciphertextSizeFault
deriving DecidableEq

/-- `(*KyberKeyPair).Decapsulate` (kyber.go:67-79).  The Go function performs
no length validation of its own: it calls `DecapsulateTo` directly, and circl
panics when the ciphertext length is not `kyber768CiphertextSize`; the panic
is modelled as `Except.error`.  On the non-panicking path the Go function
always returns a nil error. -/
def KyberKeyPair.Decapsulate (k : KyberKeyPair) (ciphertext : Bytes) :
    Except KyberFault Bytes :=
  if ciphertext.length = kyber768CiphertextSize then
    .ok (kyber768Decap k.privateKey ciphertext)
  else
    .error .ciphertextSizeFault

/-- The error result of `pqc.EncapsulateWithPublicKey` (kyber.go:81-105):
the pre-encapsulation public key size check. -/
inductive EncapsulateError
  | invalidPublicKeySize (expected got : Nat)
deriving DecidableEq

/-- `pqc.EncapsulateWithPublicKey` (kyber.go:81-105): explicit length check,
`Unpack`, then `EncapsulateTo` with a fresh random `seed`; returns
(ciphertext, shared secret). -/
def EncapsulateWithPublicKey (publicKeyBytes : Bytes) (seed : Nat) :
    Except EncapsulateError (Bytes × Bytes) :=
  if publicKeyBytes.length ≠ kyber768PublicKeySize then
    .error (.invalidPublicKeySize kyber768PublicKeySize publicKeyBytes.length)
  else
    .ok (kyber768Ciphertext publicKeyBytes.headI seed,
         kyber768Shared publicKeyBytes.headI seed)

/-- `pqc.LoadKyberKeyPair` (kyber.go:107-126). -/
def LoadKyberKeyPair (publicKeyBytes privateKeyBytes : Bytes) :
    Except LoadKeyError KyberKeyPair :=
  if publicKeyBytes.length ≠ kyber768PublicKeySize then
    .error (.invalidPublicKeySize kyber768PublicKeySize publicKeyBytes.length)
  else if privateKeyBytes.length ≠ kyber768PrivateKeySize then
    .error (.invalidPrivateKeySize kyber768PrivateKeySize privateKeyBytes.length)
  else
    .ok { publicKey := publicKeyBytes.headI, privateKey := privateKeyBytes.headI }

/-! ### Model of Go encoding/json wire output

Go's `json.Marshal` writes struct fields in declaration order and map keys in
sorted order, escapes `<`, `>`, `&`, U+2028 and U+2029 (HTML escaping is on by
default), renders `[]byte` as a base64 string and `nil` slices as `null`, and
copies a `json.RawMessage` through `compact`, which drops whitespace outside
string literals and applies the same HTML escaping.  The definitions below
reproduce exactly that byte-level behaviour for the wire shapes the repository
produces. -/

/-- JSON whitespace (the characters Go's scanner skips between tokens). -/
def jsonWs (c : Char) : Bool :=
  c == ' ' || c == '\t' || c == '\n' || c == '\r'

/-- The characters Go's encoder HTML-escapes. -/
def isHtmlEscape (c : Char) : Bool :=
  c == '<' || c == '>' || c == '&' || c == '\u2028' || c == '\u2029'

/-- The six-character escape Go writes for an HTML-escaped character. -/
def htmlSeq (c : Char) : Chars :=
  if c = '<' then ['\\', 'u', '0', '0', '3', 'c']
  else if c = '>' then ['\\', 'u', '0', '0', '3', 'e']
  else if c = '&' then ['\\', 'u', '0', '0', '2', '6']
  else if c = '\u2028' then ['\\', 'u', '2', '0', '2', '8']
  else ['\\', 'u', '2', '0', '2', '9']

/-- The scanner state of Go's `compact`: whether the current position is
inside a string literal, and whether the previous in-string character was an
unconsumed backslash. -/
structure ScanState where
  inStr : Bool
  esc : Bool
deriving DecidableEq

/-- One step of the string-literal scanner underlying `compact`. -/
def scanNext (st : ScanState) (c : Char) : ScanState :=
  if st.inStr then
    if st.esc then { inStr := true, esc := false }
    else if c = '\\' then { inStr := true, esc := true }
    else if c = '"' then { inStr := false, esc := false }
    else st
  else if c = '"' then { inStr := true, esc := false } else st

/-- The output `compact` writes for one input character: the HTML escape
sequence for the escaped characters (Go checks these before consulting the
scanner), nothing for whitespace outside strings, the character otherwise. -/
def scanOut (st : ScanState) (c : Char) : Chars :=
  if isHtmlEscape c then htmlSeq c
  else if !st.inStr && jsonWs c then []
  else [c]

/-- Runs the `compact` scanner over a character list from a given state,
returning the final state and the emitted output. -/
def compactRun : ScanState → Chars → ScanState × Chars
  | st, [] => (st, [])
  | st, c :: cs =>
    ((compactRun (scanNext st c) cs).1,
      scanOut st c ++ (compactRun (scanNext st c) cs).2)

/-- Model of Go `encoding/json`'s compact-with-HTML-escaping: the
transformation `Marshal` applies to the bytes of a `json.RawMessage`. -/
def compactEscape (s : Chars) : Chars := (compactRun { inStr := false, esc := false } s).2

theorem compactRun_append (st : ScanState) (xs ys : Chars) :
    compactRun st (xs ++ ys) =
      ((compactRun (compactRun st xs).1 ys).1,
        (compactRun st xs).2 ++ (compactRun (compactRun st xs).1 ys).2) := by
  induction xs generalizing st with
  | nil => simp [compactRun]
  | cons c cs ih => simp [compactRun, ih]

/-- Re-scanning the chunk emitted for one character, starting from the state
that character was scanned in, reproduces the chunk and lands in the state the
scanner advanced to. -/
theorem compactRun_scanOut (st : ScanState) (c : Char) :
    compactRun st (scanOut st c) = (scanNext st c, scanOut st c) := by
  by_cases hh : isHtmlEscape c = true
  · have h5 := hh
    simp only [isHtmlEscape, Bool.or_eq_true, beq_iff_eq] at h5
    obtain ⟨inStr, esc⟩ := st
    rcases h5 with (((h | h) | h) | h) | h <;>
      subst h <;> cases inStr <;> cases esc <;> decide
  · have hh' : isHtmlEscape c = false := by simpa using hh
    by_cases hw : (!st.inStr && jsonWs c) = true
    · obtain ⟨hi', hwc⟩ : (!st.inStr) = true ∧ jsonWs c = true := by simpa using hw
      have hi : st.inStr = false := by simpa using hi'
      have hq : c ≠ '"' := by
        have h4 := hwc
        simp only [jsonWs, Bool.or_eq_true, beq_iff_eq] at h4
        rcases h4 with ((h | h) | h) | h <;> subst h <;> decide
      have hout : scanOut st c = [] := by simp [scanOut, hh', hw]
      rw [hout]
      obtain ⟨inStr, esc⟩ := st
      simp only at hi
      subst hi
      simp [compactRun, scanNext, hq, hout]
    · have hw' : (!st.inStr && jsonWs c) = false := by simpa using hw
      have hout : scanOut st c = [c] := by simp [scanOut, hh', hw']
      rw [hout]
      simp [compactRun, hout]

/-- Replaying the scanner over its own output is the identity: the output has
no whitespace left outside strings and no unescaped HTML characters. -/
theorem compactRun_replay (st : ScanState) (l : Chars) :
    compactRun st (compactRun st l).2 = compactRun st l := by
  induction l generalizing st with
  | nil => simp [compactRun]
  | cons c cs ih =>
    simp only [compactRun]
    rw [compactRun_append, compactRun_scanOut]
    simp [ih (scanNext st c)]

/-- Go's compact-with-escaping is idempotent. -/
theorem compactEscape_idem (s : Chars) :
    compactEscape (compactEscape s) = compactEscape s := by
  unfold compactEscape
  rw [compactRun_replay]

/-- Hexadecimal digit characters as written by Go's string escaper. -/
def hexDigit (n : Nat) : Char :=
  if n < 10 then Char.ofNat (48 + n) else Char.ofNat (87 + n)

/-- Go's JSON escaping of a single character inside a string literal. -/
def escapeStringChar (c : Char) : Chars :=
  if c = '"' then ['\\', '"']
  else if c = '\\' then ['\\', '\\']
  else if c = '\n' then ['\\', 'n']
  else if c = '\r' then ['\\', 'r']
  else if c = '\t' then ['\\', 't']
  else if isHtmlEscape c then htmlSeq c
  else if c.toNat < 32 then
    ['\\', 'u', '0', '0', hexDigit (c.toNat / 16), hexDigit (c.toNat % 16)]
  else [c]

/-- Go's JSON rendering of a string value (quotes plus per-character
escaping). -/
def renderString (s : String) : Chars :=
  '"' :: (s.data.map escapeStringChar).flatten ++ ['"']

/-! ### Base64 (encoding/base64 StdEncoding), used by Go for `[]byte` values -/

/-- The standard base64 alphabet. -/
def base64Table : Chars :=
  "ABCDEFGHIJKLMNOPQRSTUVWXYZabcdefghijklmnopqrstuvwxyz0123456789+/".data

/-- The base64 character for a six-bit value. -/
def b64Char (n : Nat) : Char := base64Table.getD n 'A'

/-- The six-bit value of a base64 character, `none` for characters outside
the alphabet (including the padding character). -/
def b64Index (c : Char) : Option Nat := base64Table.findIdx? (fun x => x == c)

/-- Standard base64 encoding with padding, as `base64.StdEncoding` writes
`[]byte` values into JSON. -/
def base64Encode : Bytes → Chars
  | [] => []
  | [a] => [b64Char (a / 4), b64Char (a % 4 * 16), '=', '=']
  | [a, b] => [b64Char (a / 4), b64Char (a % 4 * 16 + b / 16), b64Char (b % 16 * 4), '=']
  | a :: b :: c :: rest =>
    b64Char (a / 4) :: b64Char (a % 4 * 16 + b / 16) :: b64Char (b % 16 * 4 + c / 64) ::
      b64Char (c % 64) :: base64Encode rest

/-- Strict standard base64 decoding with padding, as
`base64.StdEncoding.DecodeString` reads. -/
def base64Decode : Chars → Option Bytes
  | [] => some []
  | c1 :: c2 :: c3 :: c4 :: rest =>
    match b64Index c1, b64Index c2 with
    | some s1, some s2 =>
      if c3 = '=' then
        if c4 = '=' && rest.isEmpty && s2 % 16 == 0 then some [s1 * 4 + s2 / 16]
        else none
      else
        match b64Index c3 with
        | some s3 =>
          if c4 = '=' then
            if rest.isEmpty && s3 % 4 == 0 then
              some [s1 * 4 + s2 / 16, s2 % 16 * 16 + s3 / 4]
            else none
          else
            match b64Index c4, base64Decode rest with
            | some s4, some tail =>
              some ((s1 * 4 + s2 / 16) :: (s2 % 16 * 16 + s3 / 4) :: (s3 % 4 * 64 + s4) :: tail)
            | _, _ => none
        | none => none
    | _, _ => none
  | _ => none

theorem b64Index_b64Char_fin : ∀ n : Fin 64, b64Index (b64Char n.val) = some n.val := by
  decide

theorem b64Index_b64Char {n : Nat} (h : n < 64) : b64Index (b64Char n) = some n :=
  b64Index_b64Char_fin ⟨n, h⟩

theorem b64Char_ne_pad_fin : ∀ n : Fin 64, b64Char n.val ≠ '=' := by
  decide

theorem b64Char_ne_pad {n : Nat} (h : n < 64) : b64Char n ≠ '=' :=
  b64Char_ne_pad_fin ⟨n, h⟩

/-- Decoding inverts encoding on byte lists. -/
theorem base64Decode_base64Encode :
    ∀ l : Bytes, (∀ x ∈ l, x < 256) → base64Decode (base64Encode l) = some l
  | [], _ => rfl
  | [a], h => by
    have ha : a < 256 := h a (by simp)
    have h1 : a / 4 < 64 := by omega
    have h2 : a % 4 * 16 < 64 := by omega
    have hm : a % 4 * 16 % 16 = 0 := by omega
    have hv : a / 4 * 4 + a % 4 * 16 / 16 = a := by omega
    simp [base64Encode, base64Decode, b64Index_b64Char h1, b64Index_b64Char h2, hm, hv]
    omega
  | [a, b], h => by
    have ha : a < 256 := h a (by simp)
    have hb : b < 256 := h b (by simp)
    have h1 : a / 4 < 64 := by omega
    have h2 : a % 4 * 16 + b / 16 < 64 := by omega
    have h3 : b % 16 * 4 < 64 := by omega
    have hm : b % 16 * 4 % 4 = 0 := by omega
    have hv1 : a / 4 * 4 + (a % 4 * 16 + b / 16) / 16 = a := by omega
    have hv2 : (a % 4 * 16 + b / 16) % 16 * 16 + b % 16 * 4 / 4 = b := by omega
    simp [base64Encode, base64Decode, b64Index_b64Char h1, b64Index_b64Char h2,
      b64Index_b64Char h3, b64Char_ne_pad h3, hm, hv1, hv2]
    omega
  | a :: b :: c :: rest, h => by
    have ha : a < 256 := h a (by simp)
    have hb : b < 256 := h b (by simp)
    have hc : c < 256 := h c (by simp)
    have h1 : a / 4 < 64 := by omega
    have h2 : a % 4 * 16 + b / 16 < 64 := by omega
    have h3 : b % 16 * 4 + c / 64 < 64 := by omega
    have h4 : c % 64 < 64 := by omega
    have ih := base64Decode_base64Encode rest (fun x hx => h x (by simp [hx]))
    have hv1 : a / 4 * 4 + (a % 4 * 16 + b / 16) / 16 = a := by omega
    have hv2 : (a % 4 * 16 + b / 16) % 16 * 16 + (b % 16 * 4 + c / 64) / 4 = b := by omega
    have hv3 : (b % 16 * 4 + c / 64) % 4 * 64 + c % 64 = c := by omega
    simp [base64Encode, base64Decode, b64Index_b64Char h1, b64Index_b64Char h2,
      b64Index_b64Char h3, b64Index_b64Char h4, b64Char_ne_pad h3, b64Char_ne_pad h4,
      ih, hv1, hv2, hv3]

/-! ### Validity of a raw JSON value (the check inside Go's Marshal)

`json.Marshal` fails on a struct holding a `json.RawMessage` exactly when
`compact` reports a syntax error, i.e. when the raw bytes are not one valid
JSON value.  The checker below models that check on the compacted form.  It
is a model of the external library with two documented simplifications: the
interiors of escape sequences and the exact number grammar are not fully
validated (no claim in this development depends on either). -/

/-- Drops leading JSON whitespace. -/
def dropWs (s : Chars) : Chars := s.dropWhile jsonWs

/-- Consumes an expected literal continuation (for `true`, `false`, `null`). -/
def expectChars : Chars → Chars → Option Chars
  | [], s => some s
  | e :: es, c :: cs => if c = e then expectChars es cs else none
  | _ :: _, [] => none

/-- Characters that may occur in a JSON number token. -/
def jsonNumberChar (c : Char) : Bool :=
  c.isDigit || c == '-' || c == '+' || c == '.' || c == 'e' || c == 'E'

/-- Consumes the remainder of a string literal after the opening quote. -/
def jsonStringRest : Chars → Option Chars
  | [] => none
  | '"' :: rest => some rest
  | '\\' :: [] => none
  | '\\' :: _ :: rest => jsonStringRest rest
  | _ :: rest => jsonStringRest rest

mutual

/-- Consumes one JSON value, returning the unconsumed remainder; the fuel
bounds the recursion depth and is ample for every input it is applied to. -/
def jsonVal : Nat → Chars → Option Chars
  | 0, _ => none
  | fuel + 1, s =>
    match dropWs s with
    | [] => none
    | '\x7b' :: rest => jsonMembers fuel rest true
    | '[' :: rest => jsonElements fuel rest true
    | '"' :: rest => jsonStringRest rest
    | 't' :: rest => expectChars ['r', 'u', 'e'] rest
    | 'f' :: rest => expectChars ['a', 'l', 's', 'e'] rest
    | 'n' :: rest => expectChars ['u', 'l', 'l'] rest
    | c :: rest =>
      if c = '-' || c.isDigit then some ((c :: rest).dropWhile jsonNumberChar)
      else none

/-- Consumes object members after the opening brace (`first` is true when no
member has been consumed yet, so a closing brace is still allowed). -/
def jsonMembers : Nat → Chars → Bool → Option Chars
  | 0, _, _ => none
  | fuel + 1, s, first =>
    match dropWs s with
    | '\x7d' :: rest => if first then some rest else none
    | '"' :: rest =>
      match jsonStringRest rest with
      | none => none
      | some afterKey =>
        match dropWs afterKey with
        | ':' :: afterColon =>
          match jsonVal fuel afterColon with
          | none => none
          | some afterVal =>
            match dropWs afterVal with
            | ',' :: r => jsonMembers fuel r false
            | '\x7d' :: r => some r
            | _ => none
        | _ => none
    | _ => none

/-- Consumes array elements after the opening bracket. -/
def jsonElements : Nat → Chars → Bool → Option Chars
  | 0, _, _ => none
  | fuel + 1, s, first =>
    match dropWs s with
    | ']' :: rest => if first then some rest else none
    | _ =>
      match jsonVal fuel s with
      | none => none
      | some afterVal =>
        match dropWs afterVal with
        | ',' :: r => jsonElements fuel r false
        | ']' :: r => some r
        | _ => none

end

/-- Whether a byte string is exactly one valid JSON value (plus surrounding
whitespace): the condition under which Go's `compact`, and hence `Marshal` of
a struct holding this `json.RawMessage`, succeeds. -/
def jsonValid (s : Chars) : Bool :=
  match jsonVal (s.length + 2) s with
  | some rest => (dropWs rest).isEmpty
  | none => false

/-! ### pkg/models/types.go and the repository's wire shapes -/

/-- `models.ServiceRequest` (types.go:14-20).  `timestamp` models the
`time.Time` field by its RFC3339 wire text, which Go's Unmarshal-then-Marshal
round trip reproduces byte-for-byte; `data` is the `json.RawMessage`;
`signature` is the `[]byte` field with `none` for nil; `headers` is the
`map[string]string` (tag `headers,omitempty`). -/
structure ServiceRequest where
  serviceID : String
  timestamp : String
  data : Chars
  signature : Option Bytes
  headers : List (String × String)
deriving DecidableEq

/-- `models.ServiceResponse` (types.go:22-30), restricted to the fields the
repository sets (`headers` is never set and `error` never non-empty on the
paths modelled here). -/
structure ServiceResponse where
  serviceID : String
  timestamp : String
  data : Chars
  signature : Bytes
  success : Bool
deriving DecidableEq

/-- `models.ServiceKeyPair` (types.go:8-12), private key omitted as on every
registration path. -/
structure ServiceKeyPair where
  serviceID : String
  publicKey : Bytes
deriving DecidableEq

/-- `models.KeyExchangeRequest` (types.go:39-44). -/
structure KeyExchangeRequest where
  serviceID : String
  kyberPublicKey : Bytes
  timestamp : String
  signature : Bytes
deriving DecidableEq

/-- `models.KeyExchangeResponse` (types.go:46-51); `sharedSecret` carries the
tag `shared_secret,omitempty`. -/
structure KeyExchangeResponse where
  ciphertext : Bytes
  sharedSecret : Option Bytes
  timestamp : String
  signature : Bytes
deriving DecidableEq

/-- Go rendering of a `[]byte` JSON value: a base64 string, `null` for nil. -/
def renderBytesField : Option Bytes → Chars
  | none => ['n', 'u', 'l', 'l']
  | some b => '"' :: base64Encode b ++ ['"']

/-- Inserts a header into a key-sorted list (Go marshals map keys sorted). -/
def insertHeader (p : String × String) : List (String × String) → List (String × String)
  | [] => [p]
  | q :: rest => if p.1 ≤ q.1 then p :: q :: rest else q :: insertHeader p rest

/-- Sorts headers by key, as Go's map marshaling does. -/
def sortHeaders : List (String × String) → List (String × String)
  | [] => []
  | p :: rest => insertHeader p (sortHeaders rest)

/-- One `"key":"value"` member of the headers object. -/
def renderHeaderEntry (p : String × String) : Chars :=
  renderString p.1 ++ [':'] ++ renderString p.2

/-- The `headers` field as Go writes it: omitted entirely when the map is
empty (`omitempty`), otherwise a key-sorted JSON object. -/
def renderHeadersField (headers : List (String × String)) : Chars :=
  match sortHeaders headers with
  | [] => []
  | hs =>
    ",\"headers\":".data ++ ['\x7b']
      ++ (List.intersperse [','] (hs.map renderHeaderEntry)).flatten ++ ['\x7d']

/-- The exact bytes Go's `json.Marshal` writes for a `models.ServiceRequest`
whose RawMessage data has already been compact-escaped: fields in struct
declaration order (types.go:14-20), strings escaped, `[]byte` as base64 or
`null`, the headers map key-sorted and omitted when empty. -/
def renderServiceRequest (serviceID timestamp : String) (dataWire : Chars)
    (signature : Option Bytes) (headers : List (String × String)) : Chars :=
  ['\x7b'] ++ "\"service_id\":".data ++ renderString serviceID
    ++ ",\"timestamp\":".data ++ renderString timestamp
    ++ ",\"data\":".data ++ dataWire
    ++ ",\"signature\":".data ++ renderBytesField signature
    ++ renderHeadersField headers
    ++ ['\x7d']

/-- Model of `json.Marshal` on a `models.ServiceRequest`: the RawMessage data
is compact-escaped and validated (Go's Marshal returns an error, modelled as
`none`, exactly when the raw message is not valid JSON), every other field
always marshals. -/
def goMarshalServiceRequest (r : ServiceRequest) : Option Chars :=
  let dataWire := compactEscape r.data
  if jsonValid dataWire then
    some (renderServiceRequest r.serviceID r.timestamp dataWire r.signature r.headers)
  else none

/-- Model of `json.Unmarshal` applied to bytes `goMarshalServiceRequest`
produced: the string, time and map fields round-trip to the original values,
and the `json.RawMessage` field receives the exact wire bytes of the data
value, which Marshal wrote as the compact-escape of the original. -/
def goDecodeMarshalled (r : ServiceRequest) : ServiceRequest :=
  { r with data := compactEscape r.data }

/-! ### cmd/auth/main.go: the Identity Registry -/

/-- `AuthService` (auth/main.go:16-22); the registry map is the association
list, the mutex disappears in the sequential model. -/
structure AuthService where
  dilithiumKeyPair : DilithiumKeyPair
  kyberKeyPair : KyberKeyPair
  serviceRegistry : List (String × Bytes)
  serviceID : String
deriving DecidableEq

/-- `registerService` (auth/main.go:60-102) after a successful body decode:
stores/overwrites the mapping.  The signed acknowledgment (lines 77-101) does
not affect the registry state and no claim inspects it. -/
def registerService (as : AuthService) (keyPair : ServiceKeyPair) : AuthService :=
  { as with
    serviceRegistry := mapInsert as.serviceRegistry keyPair.serviceID keyPair.publicKey }

/-- The JSON marshaling of the map auth/main.go:120-124 (keys sorted:
public_key, service_id, timestamp); the `[]byte` key becomes a base64
string. -/
def renderPublicKeyData (serviceID : String) (publicKey : Bytes) (now : String) : Chars :=
  ['\x7b'] ++ "\"public_key\":".data ++ renderBytesField (some publicKey)
    ++ ",\"service_id\":".data ++ renderString serviceID
    ++ ",\"timestamp\":".data ++ renderString now ++ ['\x7d']

/-- Outcome of the registry's public-key endpoint. -/
inductive GetPublicKeyResult
  | notFound
  | ok (publicKey : Bytes) (response : ServiceResponse)
deriving DecidableEq

/-- `getPublicKey` (auth/main.go:104-146): 404 when the service is absent,
otherwise a signed response whose Data is the marshaled key map.  The result
also carries the raw registry value, used by the models of the callers'
decoders for the wire they receive. -/
def getPublicKey (as : AuthService) (serviceID now : String) : GetPublicKeyResult :=
  match mapLookup as.serviceRegistry serviceID with
  | none => .notFound
  | some publicKey =>
    let responseData := renderPublicKeyData serviceID publicKey now
    .ok publicKey
      { serviceID := as.serviceID, timestamp := now, data := responseData,
        signature := as.dilithiumKeyPair.Sign (toBytes responseData), success := true }

/-- The JSON marshaling of the map auth/main.go:168-172 whose signature
keyExchange verifies (keys sorted: kyber_public_key, service_id, timestamp). -/
def renderKeyExchangeFields (serviceID : String) (kyberPublicKey : Bytes)
    (timestamp : String) : Chars :=
  ['\x7b'] ++ "\"kyber_public_key\":".data ++ renderBytesField (some kyberPublicKey)
    ++ ",\"service_id\":".data ++ renderString serviceID
    ++ ",\"timestamp\":".data ++ renderString timestamp ++ ['\x7d']

/-- The JSON marshaling of a `models.KeyExchangeResponse` (struct order:
ciphertext, shared_secret omitted when nil, timestamp, signature null when
nil). -/
def renderKeyExchangeResponse (ciphertext : Bytes) (sharedSecret : Option Bytes)
    (timestamp : String) (signature : Option Bytes) : Chars :=
  ['\x7b'] ++ "\"ciphertext\":".data ++ renderBytesField (some ciphertext)
    ++ (match sharedSecret with
        | none => []
        | some ss => ",\"shared_secret\":".data ++ renderBytesField (some ss))
    ++ ",\"timestamp\":".data ++ renderString timestamp
    ++ ",\"signature\":".data ++ renderBytesField signature ++ ['\x7d']

/-- Outcome of the registry's key-exchange endpoint, with the HTTP statuses
401 (unregistered), 401 (bad signature), 500, 200. -/
inductive KeyExchangeResult
  | unauthorizedNotRegistered
  | unauthorizedInvalidSignature
  | encapsulationFailed
  | ok (response : KeyExchangeResponse)
deriving DecidableEq

/-- `keyExchange` (auth/main.go:148-206) after a successful body decode:
registry lookup (401 when absent, before any use of the signature), signature
verification over the re-marshaled request fields (401 on failure),
encapsulation against the supplied Kyber key — the locally derived shared
secret is bound and discarded (line 180) — then the response is built with
only Ciphertext and Timestamp set, marshaled and signed, and the signature
attached.  `now` models the wall clock and `seed` the encapsulation
randomness. -/
def keyExchange (as : AuthService) (request : KeyExchangeRequest) (now : String)
    (seed : Nat) : KeyExchangeResult :=
  match mapLookup as.serviceRegistry request.serviceID with
  | none => .unauthorizedNotRegistered
  | some servicePublicKey =>
    let requestData :=
      renderKeyExchangeFields request.serviceID request.kyberPublicKey request.timestamp
    match VerifyDilithiumSignature servicePublicKey (toBytes requestData) request.signature with
    | some _ => .unauthorizedInvalidSignature
    | none =>
      match EncapsulateWithPublicKey request.kyberPublicKey seed with
      | .error _ => .encapsulationFailed
      | .ok (ciphertext, _sharedSecret) =>
        let responseData := renderKeyExchangeResponse ciphertext none now none
        let signature := as.dilithiumKeyPair.Sign (toBytes responseData)
        .ok { ciphertext := ciphertext, sharedSecret := none, timestamp := now,
              signature := signature }

/-! ### Decoded JSON values and the two public-key decoders -/

/-- A decoded JSON value as Go's Unmarshal produces into interface-typed
maps: strings, arrays and numbers cover the key maps exchanged here (JSON
numbers are modelled as naturals; on the wire the key bytes are 0-255
integers). -/
inductive JVal
  | str (s : Chars)
  | arr (xs : List JVal)
  | num (n : Nat)

/-- Model of `json.Unmarshal` applied to the registry's marshaled key map
(the Data written by `renderPublicKeyData`): Go reads the base64 string it
wrote for the `[]byte` field back as a string value, so the decoded map holds
a string — never an array — at "public_key". -/
def decodePublicKeyData (serviceID : String) (publicKey : Bytes) (now : String) :
    List (String × JVal) :=
  [("public_key", .str (base64Encode publicKey)),
   ("service_id", .str serviceID.data),
   ("timestamp", .str now.data)]

/-- The error results of `pqc.DeserializePublicKeyFromJSON`
(utils.go:100-139). -/
inductive DeserializeError
  | publicKeyFieldNotFound
  | base64DecodeFailed
  | invalidByteFormat
  | invalidFormat
deriving DecidableEq

/-- `pqc.DeserializePublicKeyFromJSON` (utils.go:100-139): the base64-string
case first, then the JSON-array-of-numbers case (Go's `byte(float64)`
conversion truncates, modelled as `% 256`; the offending index in the error
message is not modelled), then a direct `[]byte` fallback that Unmarshal
output never contains. -/
def DeserializePublicKeyFromJSON (keyData : List (String × JVal)) :
    Except DeserializeError Bytes :=
  match mapLookup keyData "public_key" with
  | none => .error .publicKeyFieldNotFound
  | some (.str keyString) =>
    match base64Decode keyString with
    | some pubKey => .ok pubKey
    | none => .error .base64DecodeFailed
  | some (.arr publicKeySlice) =>
    match publicKeySlice.mapM (fun v => match v with | .num b => some (b % 256) | _ => none) with
    | some pubKey => .ok pubKey
    | none => .error .invalidByteFormat
  | some (.num _) => .error .invalidFormat

/-- The error results of the backend's key fetch (part_003:102-151). -/
inductive BackendKeyError
  | fetchStatus (code : Nat)
  | invalidPublicKeyFormat
  | invalidPublicKeyByte
deriving DecidableEq

/-- The inline conversion in the backend's getServicePublicKey
(part_003:132-144): only the `[]interface` (JSON array) shape is accepted;
every other shape fails with "invalid public key format". -/
def backendDecodePublicKey (keyData : List (String × JVal)) :
    Except BackendKeyError Bytes :=
  match mapLookup keyData "public_key" with
  | some (.arr publicKeyBytes) =>
    match publicKeyBytes.mapM (fun v => match v with | .num b => some (b % 256) | _ => none) with
    | some pubKey => .ok pubKey
    | none => .error .invalidPublicKeyByte
  | _ => .error .invalidPublicKeyFormat

/-! ### The backend service (src/unnamed/part_003) -/

/-- `BackendService` (part_003:25-33). -/
structure BackendService where
  dilithiumKeyPair : DilithiumKeyPair
  kyberKeyPair : KyberKeyPair
  serviceID : String
  publicKeyCache : List (String × Bytes)
  requestCounter : Nat
deriving DecidableEq

/-- Backend `getServicePublicKey` (part_003:102-151): cache hit, else an HTTP
GET of the registry's public-key endpoint — modelled by invoking the registry
handler directly, a non-200 status being an error — then decode, the inline
array-shape conversion, and the cache store. -/
def backendGetServicePublicKey (bs : BackendService) (as : AuthService)
    (serviceID now : String) : Except BackendKeyError (Bytes × BackendService) :=
  match mapLookup bs.publicKeyCache serviceID with
  | some publicKey => .ok (publicKey, bs)
  | none =>
    match getPublicKey as serviceID now with
    | .notFound => .error (.fetchStatus 404)
    | .ok publicKey _response =>
      match backendDecodePublicKey (decodePublicKeyData serviceID publicKey now) with
      | .error e => .error e
      | .ok pubKey =>
        .ok (pubKey,
          { bs with publicKeyCache := mapInsert bs.publicKeyCache serviceID pubKey })

/-- The canonical bytes the backend recomputes for verification
(part_003:161-171): the JSON marshaling of the request with the Signature
field left at its zero value. -/
def verifyCanonicalBytes (request : ServiceRequest) : Option Chars :=
  goMarshalServiceRequest
    { serviceID := request.serviceID, timestamp := request.timestamp,
      data := request.data, signature := none, headers := request.headers }

/-- The error results of the backend's verifyRequest (part_003:153-179). -/
inductive VerifyRequestError
  | keyResolution (e : BackendKeyError)
  | canonicalizationFailed
  | signatureInvalid (e : DilithiumVerifyError)
deriving DecidableEq

/-- Backend `verifyRequest` (part_003:153-179): key resolution, recompute the
canonical bytes, verify.  Returns the error (`none` on success) together with
the service state, whose key cache the fetch may have populated. -/
def backendVerifyRequest (bs : BackendService) (as : AuthService)
    (request : ServiceRequest) (now : String) :
    Option VerifyRequestError × BackendService :=
  match backendGetServicePublicKey bs as request.serviceID now with
  | .error e => (some (.keyResolution e), bs)
  | .ok (publicKey, bs1) =>
    match verifyCanonicalBytes request with
    | none => (some .canonicalizationFailed, bs1)
    | some payload =>
      match VerifyDilithiumSignature publicKey (toBytes payload)
          (request.signature.getD []) with
      | some e => (some (.signatureInvalid e), bs1)
      | none => (none, bs1)

/-- The JSON marshaling of the echo response map (part_003:208-216), keys
sorted.  The decoded-and-remarshaled client value at original_data is
modelled by the compact form of the request data, and the wall-clock
processing_time by the fixed text "0s" (real time is outside the
embedding). -/
def renderEchoResponseData (fromService : String) (originalData : Chars)
    (requestCount : Nat) (serviceID now : String) : Chars :=
  ['\x7b'] ++ "\"from_service\":".data ++ renderString fromService
    ++ ",\"message\":\"Echo from Backend Service\"".data
    ++ ",\"original_data\":".data ++ originalData
    ++ ",\"processing_time\":\"0s\"".data
    ++ ",\"request_count\":".data ++ (toString requestCount).data
    ++ ",\"service_id\":".data ++ renderString serviceID
    ++ ",\"timestamp\":".data ++ renderString now ++ ['\x7d']

/-- The JSON marshaling of the transformation response map
(part_003:276-288), keys sorted at both levels, with the same modelling of
the re-marshaled input and of wall-clock durations as for the echo
response. -/
def renderProcessResponseData (input : Chars) (requestCount : Nat)
    (serviceID fromService now : String) : Chars :=
  ['\x7b'] ++ "\"input\":".data ++ input
    ++ ",\"metadata\":".data ++ ['\x7b']
    ++ "\"algorithm\":\"Dilithium3\",\"from_service\":".data ++ renderString fromService
    ++ ",\"quantum_safe\":true".data ++ ['\x7d']
    ++ ",\"operation\":\"data_transformation\"".data
    ++ ",\"processing_time\":\"0s\"".data
    ++ ",\"request_count\":".data ++ (toString requestCount).data
    ++ ",\"service_id\":".data ++ renderString serviceID
    ++ ",\"transformed_at\":".data ++ renderString now ++ ['\x7d']

/-- Outcome of a backend handler: 401, or the signed 200 response. -/
inductive BackendOutcome
  | unauthorized
  | signedResponse (response : ServiceResponse)
deriving DecidableEq

/-- Backend `processEcho` (part_003:181-245) after a successful body decode:
verify — rejecting with 401 before any effect of the operation — then
increment the request counter, build the echo payload, sign it and return the
signed response. -/
def processEcho (bs : BackendService) (as : AuthService) (request : ServiceRequest)
    (now : String) : BackendOutcome × BackendService :=
  match backendVerifyRequest bs as request now with
  | (some _, bs1) => (.unauthorized, bs1)
  | (none, bs1) =>
    let bs2 := { bs1 with requestCounter := bs1.requestCounter + 1 }
    let responsePayload := renderEchoResponseData request.serviceID
      (compactEscape request.data) bs2.requestCounter bs2.serviceID now
    let signature := bs2.dilithiumKeyPair.Sign (toBytes responsePayload)
    (.signedResponse
      { serviceID := bs2.serviceID, timestamp := now, data := responsePayload,
        signature := signature, success := true }, bs2)

/-- Backend `processData` (part_003:247-317) after a successful body decode:
same discipline as `processEcho` with the transformation payload. -/
def processData (bs : BackendService) (as : AuthService) (request : ServiceRequest)
    (now : String) : BackendOutcome × BackendService :=
  match backendVerifyRequest bs as request now with
  | (some _, bs1) => (.unauthorized, bs1)
  | (none, bs1) =>
    let bs2 := { bs1 with requestCounter := bs1.requestCounter + 1 }
    let responsePayload := renderProcessResponseData (compactEscape request.data)
      bs2.requestCounter bs2.serviceID request.serviceID now
    let signature := bs2.dilithiumKeyPair.Sign (toBytes responsePayload)
    (.signedResponse
      { serviceID := bs2.serviceID, timestamp := now, data := responsePayload,
        signature := signature, success := true }, bs2)

/-! ### cmd/gateway/main.go: the Requesting Party -/

/-- `APIGateway` (gateway/main.go:26-34); the two service URLs are collapsed
into direct invocation of the modelled peers. -/
structure APIGateway where
  dilithiumKeyPair : DilithiumKeyPair
  kyberKeyPair : KyberKeyPair
  serviceID : String
  publicKeyCache : List (String × Bytes)
deriving DecidableEq

/-- The error results of the gateway's key fetch (gateway/main.go:103-143). -/
inductive GatewayKeyError
  | fetchStatus (code : Nat)
  | deserialize (e : DeserializeError)
deriving DecidableEq

/-- Gateway `getServicePublicKey` (gateway/main.go:103-143): cache hit, else
fetch from the registry, decode via `pqc.DeserializePublicKeyFromJSON`, cache
store. -/
def gatewayGetServicePublicKey (gw : APIGateway) (as : AuthService)
    (serviceID now : String) : Except GatewayKeyError (Bytes × APIGateway) :=
  match mapLookup gw.publicKeyCache serviceID with
  | some publicKey => .ok (publicKey, gw)
  | none =>
    match getPublicKey as serviceID now with
    | .notFound => .error (.fetchStatus 404)
    | .ok publicKey _response =>
      match DeserializePublicKeyFromJSON (decodePublicKeyData serviceID publicKey now) with
      | .error e => .error (.deserialize e)
      | .ok publicKeyBytes =>
        .ok (publicKeyBytes,
          { gw with publicKeyCache := mapInsert gw.publicKeyCache serviceID publicKeyBytes })

/-- gateway/main.go:184-190: an empty inbound body becomes the JSON object
before the envelope is built. -/
def normBody (body : Chars) : Chars :=
  if body = [] then ['\x7b', '\x7d'] else body

/-- Outcome of the gateway's forwarding path, up to the outbound request:
a 500 before contacting the backend, or a POST of the signed payload to the
same path on the backend. -/
inductive ForwardResult
  | internalError
  | backendPost (path : String) (signedPayload : Chars)
deriving DecidableEq

/-- Gateway `forwardToBackend` (gateway/main.go:173-231) up to the outbound
POST: build the ServiceRequest with the normalized body and the inbound
headers, marshal (500 on failure), sign the marshaled bytes, re-marshal with
the signature attached — the second Marshal's error is discarded in the
source (line 220), modelled by `getD []` — and POST to the same path. -/
def forwardToBackend (gw : APIGateway) (path : String) (body : Chars)
    (headers : List (String × String)) (now : String) : ForwardResult :=
  let requestData : ServiceRequest :=
    { serviceID := gw.serviceID, timestamp := now, data := normBody body,
      signature := none, headers := headers }
  match goMarshalServiceRequest requestData with
  | none => .internalError
  | some requestPayload =>
    let signature := gw.dilithiumKeyPair.Sign (toBytes requestPayload)
    .backendPost path
      ((goMarshalServiceRequest { requestData with signature := some signature }).getD [])

/-- Outcome of the gateway's top-level handler. -/
inductive GatewayAction
  | healthOK
  | forwarded (result : ForwardResult)
deriving DecidableEq

/-- Gateway `handleRequest` (gateway/main.go:270-289): the health path
short-circuits with 200; every other path — the router matches every method —
is forwarded. -/
def handleRequest (gw : APIGateway) (method path : String) (body : Chars)
    (headers : List (String × String)) (now : String) : GatewayAction :=
  if path = "/health" then .healthOK
  else .forwarded (forwardToBackend gw path body headers now)

/-- Outcome of the gateway's key-exchange client (the `method` parameter of
`handleRequest` plays no role here). -/
inductive KeyExchangeClientResult
  | statusError (code : Nat)
  | decodeError
  | panicked
  | decapsulated (sharedSecret : Bytes)
deriving DecidableEq

/-- Gateway `performKeyExchange` (gateway/main.go:291-336) from the
registry's HTTP reply onward (building and signing the request, lines
294-313, cannot affect what follows): a non-200 status aborts, a body-decode
failure aborts, and otherwise the ciphertext is decapsulated directly — the
source contains no verification of the reply signature between the decode
(line 325) and the decapsulation (line 329). -/
def performKeyExchange (gw : APIGateway) (responseStatus : Nat)
    (response : Option KeyExchangeResponse) : KeyExchangeClientResult :=
  if responseStatus ≠ 200 then .statusError responseStatus
  else
    match response with
    | none => .decodeError
    | some resp =>
      match gw.kyberKeyPair.Decapsulate resp.ciphertext with
      | .error _ => .panicked
      | .ok sharedSecret => .decapsulated sharedSecret

/-! ### Helper lemmas about the primitives -/

theorem kyber768Ciphertext_length (k seed : Nat) :
    (kyber768Ciphertext k seed).length = kyber768CiphertextSize := by
  simp only [kyber768Ciphertext, List.length_cons, List.length_replicate]
  rfl

theorem kyber768PubBytes_length (k : Nat) :
    (kyber768PubBytes k).length = kyber768PublicKeySize := by
  simp only [kyber768PubBytes, List.length_cons, List.length_replicate]
  rfl

theorem mode3Sig_inj_key {k k' : Nat} {d d' : Bytes}
    (h : mode3Sig k d = mode3Sig k' d') : k = k' := by
  have h1 : Nat.pair k (packBytes d) = Nat.pair k' (packBytes d') := by
    simpa [mode3Sig] using congrArg List.headI h
  exact (Nat.pair_eq_pair.mp h1).1

theorem mode3UnmarshalBinaryPub_pubBytes (k : Nat) :
    mode3UnmarshalBinaryPub (mode3PubBytes k) = some k := by
  unfold mode3UnmarshalBinaryPub
  rw [mode3PubBytes_length]
  simp [mode3PubBytes]

theorem mode3UnmarshalBinaryPriv_privBytes (k : Nat) :
    mode3UnmarshalBinaryPriv (mode3PrivBytes k) = some k := by
  unfold mode3UnmarshalBinaryPriv
  rw [mode3PrivBytes_length]
  simp [mode3PrivBytes]

/-- Evaluates `VerifyDilithiumSignature` on a well-formed public key: the
only remaining question is whether the signature is the one the key's owner
would have produced for these bytes. -/
theorem VerifyDilithiumSignature_pubBytes (k : Nat) (data sig : Bytes) :
    VerifyDilithiumSignature (mode3PubBytes k) data sig =
      if sig = mode3Sig k data then none else some .invalidSignature := by
  unfold VerifyDilithiumSignature
  rw [mode3PubBytes_length]
  simp [mode3UnmarshalBinaryPub_pubBytes, mode3VerifyKey]

theorem LoadDilithiumKeyPair_pub_priv (a b : Nat) :
    LoadDilithiumKeyPair (mode3PubBytes a) (mode3PrivBytes b) =
      .ok { publicKey := a, privateKey := b } := by
  unfold LoadDilithiumKeyPair
  rw [mode3PubBytes_length, mode3PrivBytes_length]
  simp [mode3UnmarshalBinaryPub_pubBytes, mode3UnmarshalBinaryPriv_privBytes]

/-! ### Demo fixtures used by concrete evaluations -/

/-- A gateway state used in concrete evaluations. -/
def demoGateway : APIGateway :=
  { dilithiumKeyPair := { publicKey := 1, privateKey := 1 },
    kyberKeyPair := { publicKey := 2, privateKey := 2 },
    serviceID := "api-gateway", publicKeyCache := [] }

/-- A registry state with one registered service, `svc-a`, holding the
public key of signature key identity 5. -/
def demoAuth : AuthService :=
  { dilithiumKeyPair := { publicKey := 0, privateKey := 0 },
    kyberKeyPair := { publicKey := 10, privateKey := 10 },
    serviceRegistry := [("svc-a", mode3PubBytes 5)],
    serviceID := "auth-service" }

/-- A correctly signed key-exchange request from `svc-a`. -/
def demoKXRequest : KeyExchangeRequest :=
  { serviceID := "svc-a", kyberPublicKey := kyber768PubBytes 9, timestamp := "T",
    signature :=
      mode3Sig 5 (toBytes (renderKeyExchangeFields "svc-a" (kyber768PubBytes 9) "T")) }

/-- A key-exchange reply carrying a well-formed ciphertext and an invalid
(empty) signature. -/
def demoBadKXResponse : KeyExchangeResponse :=
  { ciphertext := kyber768Ciphertext 2 0, sharedSecret := none, timestamp := "T",
    signature := [] }

/-! ### C1 -/

/-- C1 is false as stated: its notion of valid keypair admits a keypair
loaded from correctly-sized key bytes of two different generated keys; the
load succeeds, but verifying the keypair's own signature of the empty message
fails with "invalid signature". -/
theorem c1_counterexample :
    LoadDilithiumKeyPair (mode3PubBytes 0) (mode3PrivBytes 1) =
        .ok { publicKey := 0, privateKey := 1 } ∧
      VerifyDilithiumSignature
          (DilithiumKeyPair.GetPublicKeyBytes { publicKey := 0, privateKey := 1 }) []
          (DilithiumKeyPair.Sign { publicKey := 0, privateKey := 1 } []) =
        some .invalidSignature := by
  constructor
  · exact LoadDilithiumKeyPair_pub_priv 0 1
  · show VerifyDilithiumSignature (mode3PubBytes 0) [] (mode3Sig 1 []) = _
    rw [VerifyDilithiumSignature_pubBytes]
    rw [if_neg]
    intro h
    exact absurd (mode3Sig_inj_key h) (by decide)

/-- C1 (amended): for every byte string and every Dilithium keypair that was
produced by generation, or loaded from the public/private key serializations
of one generated keypair, verifying the keypair's signature of the data with
the keypair's own public key bytes succeeds (returns nil). -/
theorem c1_roundtrip (data : Bytes) (kp : DilithiumKeyPair)
    (h : (∃ seed, kp = GenerateDilithiumKeyPair seed) ∨
      ∃ seed, LoadDilithiumKeyPair (mode3PubBytes seed) (mode3PrivBytes seed) = .ok kp) :
    VerifyDilithiumSignature kp.GetPublicKeyBytes data (kp.Sign data) = none := by
  have hk : ∃ s, kp = { publicKey := s, privateKey := s } := by
    rcases h with ⟨seed, rfl⟩ | ⟨seed, hload⟩
    · exact ⟨seed, rfl⟩
    · rw [LoadDilithiumKeyPair_pub_priv] at hload
      exact ⟨seed, by cases hload; rfl⟩
  obtain ⟨s, rfl⟩ := hk
  show VerifyDilithiumSignature (mode3PubBytes s) data (mode3Sig s data) = none
  rw [VerifyDilithiumSignature_pubBytes, if_pos rfl]

/-- C1 (witness): the amended round trip at generation seed 3 and the
two-byte message. -/
theorem c1_witness :
    VerifyDilithiumSignature (GenerateDilithiumKeyPair 3).GetPublicKeyBytes [1, 2]
      ((GenerateDilithiumKeyPair 3).Sign [1, 2]) = none :=
  c1_roundtrip [1, 2] (GenerateDilithiumKeyPair 3) (Or.inl ⟨3, rfl⟩)

/-! ### C4 -/

/-- C4 is false as stated: a wrong-length signature is not rejected as a
malformed-input error distinct from a verification failure — it produces the
very same "invalid signature" error that a genuinely forged signature of the
correct length produces — and `Decapsulate` performs no length validation at
all: a wrong-length ciphertext makes the circl library panic instead of
returning a malformed-input error. -/
theorem c4_counterexample :
    VerifyDilithiumSignature (mode3PubBytes 7) [] [] = some .invalidSignature ∧
      VerifyDilithiumSignature (mode3PubBytes 7) [] (mode3Sig 8 []) =
        some .invalidSignature ∧
      KyberKeyPair.Decapsulate { publicKey := 7, privateKey := 7 } [] =
        .error .ciphertextSizeFault := by
  refine ⟨?_, ?_, ?_⟩
  · rw [VerifyDilithiumSignature_pubBytes, if_neg]
    exact fun h => List.cons_ne_nil _ _ h.symm
  · rw [VerifyDilithiumSignature_pubBytes, if_neg]
    intro h
    exact absurd (mode3Sig_inj_key h) (by decide)
  · simp [KyberKeyPair.Decapsulate, kyber768CiphertextSize]

/-- C4 (amended): the public-key length checks are real and distinct — a
wrong-sized signature public key or KEM public key is rejected before any
cryptography with a dedicated size error — but a wrong-length signature is
rejected inside verification with the generic "invalid signature" error, and
a wrong-length KEM ciphertext is not rejected as an error at all: the library
panics inside `Decapsulate`. -/
theorem c4_size_handling :
    (∀ pk data sig : Bytes, pk.length ≠ mode3PublicKeySize →
      VerifyDilithiumSignature pk data sig =
        some (.invalidPublicKeySize mode3PublicKeySize pk.length)) ∧
      (∀ pkb : Bytes, ∀ seed : Nat, pkb.length ≠ kyber768PublicKeySize →
        EncapsulateWithPublicKey pkb seed =
          .error (.invalidPublicKeySize kyber768PublicKeySize pkb.length)) ∧
      (∀ k : Nat, ∀ data sig : Bytes, sig.length ≠ mode3SignatureSize →
        VerifyDilithiumSignature (mode3PubBytes k) data sig = some .invalidSignature) ∧
      (∀ kp : KyberKeyPair, ∀ ct : Bytes, ct.length ≠ kyber768CiphertextSize →
        kp.Decapsulate ct = .error .ciphertextSizeFault) := by
  refine ⟨?_, ?_, ?_, ?_⟩
  · intro pk data sig h
    simp [VerifyDilithiumSignature, h]
  · intro pkb seed h
    simp [EncapsulateWithPublicKey, h]
  · intro k data sig h
    rw [VerifyDilithiumSignature_pubBytes, if_neg]
    intro hsig
    exact h (hsig ▸ mode3Sig_length k data)
  · intro kp ct h
    simp [KyberKeyPair.Decapsulate, h]

/-- C4 (witness): the amended size handling at concrete wrong-sized
inputs. -/
theorem c4_witness :
    VerifyDilithiumSignature [9] [] [] =
        some (.invalidPublicKeySize mode3PublicKeySize 1) ∧
      EncapsulateWithPublicKey [9] 0 =
        .error (.invalidPublicKeySize kyber768PublicKeySize 1) ∧
      VerifyDilithiumSignature (mode3PubBytes 7) [] [9] = some .invalidSignature ∧
      KyberKeyPair.Decapsulate { publicKey := 7, privateKey := 7 } [9] =
        .error .ciphertextSizeFault :=
  ⟨c4_size_handling.1 [9] [] [] (by decide),
    c4_size_handling.2.1 [9] 0 (by decide),
    c4_size_handling.2.2.1 7 [] [9] (by decide),
    c4_size_handling.2.2.2 { publicKey := 7, privateKey := 7 } [9] (by decide)⟩

/-! ### C3 -/

/-- C3 is false as stated: the gateway decapsulates the registry's reply
without any verification of the reply signature — here a reply whose
signature is empty, hence invalid under the registry's public key, still
reaches decapsulation. -/
theorem c3_counterexample :
    performKeyExchange demoGateway 200 (some demoBadKXResponse) =
        .decapsulated (kyber768Decap 2 (kyber768Ciphertext 2 0)) ∧
      VerifyDilithiumSignature (mode3PubBytes 0)
        (toBytes (renderKeyExchangeResponse (kyber768Ciphertext 2 0) none "T" none))
        demoBadKXResponse.signature = some .invalidSignature := by
  constructor
  · show performKeyExchange demoGateway 200 (some demoBadKXResponse) = _
    unfold performKeyExchange
    simp [demoBadKXResponse, demoGateway, KyberKeyPair.Decapsulate,
      kyber768Ciphertext_length]
  · show VerifyDilithiumSignature (mode3PubBytes 0) _ [] = _
    rw [VerifyDilithiumSignature_pubBytes, if_neg]
    exact fun h => List.cons_ne_nil _ _ h.symm

/-- C3 (amended): in `performKeyExchange`, once the registry's reply has
HTTP status 200 and its body decodes, the ciphertext is decapsulated
unconditionally — no signature verification stands between the decode and
the decapsulation, whatever the reply's signature field holds. -/
theorem c3_decapsulation_unconditional (gw : APIGateway) (resp : KeyExchangeResponse)
    (h : resp.ciphertext.length = kyber768CiphertextSize) :
    performKeyExchange gw 200 (some resp) =
      .decapsulated (kyber768Decap gw.kyberKeyPair.privateKey resp.ciphertext) := by
  unfold performKeyExchange
  simp [KyberKeyPair.Decapsulate, h]

/-- C3 (witness): the amended statement at the demo gateway and the
invalid-signature reply. -/
theorem c3_witness :
    performKeyExchange demoGateway 200 (some demoBadKXResponse) =
      .decapsulated
        (kyber768Decap demoGateway.kyberKeyPair.privateKey demoBadKXResponse.ciphertext) :=
  c3_decapsulation_unconditional demoGateway demoBadKXResponse
    (kyber768Ciphertext_length 2 0)

/-! ### C9 -/

/-- C9: every successful key exchange at the registry returns a response
whose SharedSecret field is empty — the locally derived secret is discarded
and only ciphertext, timestamp and signature are populated, so the secret is
never on the wire. -/
theorem c9_shared_secret_not_transmitted (as : AuthService)
    (request : KeyExchangeRequest) (now : String) (seed : Nat)
    (resp : KeyExchangeResponse) (h : keyExchange as request now seed = .ok resp) :
    resp.sharedSecret = none := by
  simp only [keyExchange] at h
  split at h
  · simp at h
  · split at h
    · simp at h
    · split at h
      · simp at h
      · simp only [KeyExchangeResult.ok.injEq] at h
        rw [← h]

theorem EncapsulateWithPublicKey_pubBytes (k seed : Nat) :
    EncapsulateWithPublicKey (kyber768PubBytes k) seed =
      .ok (kyber768Ciphertext k seed, kyber768Shared k seed) := by
  unfold EncapsulateWithPublicKey
  rw [kyber768PubBytes_length]
  simp [kyber768PubBytes]

/-- The demo key exchange runs to completion: the request is registered and
correctly signed, so the registry encapsulates and answers. -/
theorem keyExchange_demo_ok :
    keyExchange demoAuth demoKXRequest "T" 7 =
      .ok { ciphertext := kyber768Ciphertext 9 7, sharedSecret := none, timestamp := "T",
            signature := demoAuth.dilithiumKeyPair.Sign
              (toBytes (renderKeyExchangeResponse (kyber768Ciphertext 9 7) none "T" none)) } := by
  unfold keyExchange
  rw [show demoKXRequest.serviceID = "svc-a" from rfl,
    show demoKXRequest.kyberPublicKey = kyber768PubBytes 9 from rfl,
    show demoKXRequest.timestamp = "T" from rfl,
    show demoKXRequest.signature =
      mode3Sig 5 (toBytes (renderKeyExchangeFields "svc-a" (kyber768PubBytes 9) "T"))
      from rfl]
  rw [show mapLookup demoAuth.serviceRegistry "svc-a" = some (mode3PubBytes 5) by
    simp [demoAuth, mapLookup]]
  simp only []
  rw [VerifyDilithiumSignature_pubBytes, if_pos rfl]
  simp only []
  rw [EncapsulateWithPublicKey_pubBytes]

/-- The registry's reply in the demo key exchange. -/
def demoKXResponse : KeyExchangeResponse :=
  { ciphertext := kyber768Ciphertext 9 7, sharedSecret := none, timestamp := "T",
    signature := demoAuth.dilithiumKeyPair.Sign
      (toBytes (renderKeyExchangeResponse (kyber768Ciphertext 9 7) none "T" none)) }

/-- C9 (witness): a complete successful key exchange for the registered
service `svc-a`, whose response indeed carries no shared secret. -/
theorem c9_witness :
    keyExchange demoAuth demoKXRequest "T" 7 = .ok demoKXResponse ∧
      demoKXResponse.sharedSecret = none :=
  ⟨keyExchange_demo_ok,
    c9_shared_secret_not_transmitted demoAuth demoKXRequest "T" 7 demoKXResponse
      keyExchange_demo_ok⟩

/-! ### C5 -/

/-- C5: for every request the gateway builds — any timestamp and headers,
and any data whose Marshal succeeds, which is exactly the valid-JSON
condition every request reaching the signing path satisfies — the canonical
bytes the backend recomputes after one JSON decode of the wire form are
byte-for-byte the payload the gateway signed, so both signature checks run
over identical input. -/
theorem c5_canonical_bytes_agree (timestamp : String) (data : Chars)
    (headers : List (String × String)) (sig : Bytes) (payload : Chars)
    (h : goMarshalServiceRequest
        { serviceID := "api-gateway", timestamp := timestamp, data := data,
          signature := none, headers := headers } = some payload) :
    verifyCanonicalBytes (goDecodeMarshalled
        { serviceID := "api-gateway", timestamp := timestamp, data := data,
          signature := some sig, headers := headers }) = some payload := by
  simp only [goMarshalServiceRequest] at h
  simp only [verifyCanonicalBytes, goDecodeMarshalled, goMarshalServiceRequest,
    compactEscape_idem]
  exact h

/-- C5 (witness): the canonical bytes agree for the envelope around the
compact body of the empty-object request at timestamp T. -/
theorem c5_witness :
    verifyCanonicalBytes (goDecodeMarshalled
        { serviceID := "api-gateway", timestamp := "T", data := ['\x7b', '\x7d'],
          signature := some [], headers := [] }) =
      some (renderServiceRequest "api-gateway" "T" (compactEscape ['\x7b', '\x7d'])
        none []) :=
  c5_canonical_bytes_agree "T" ['\x7b', '\x7d'] [] []
    (renderServiceRequest "api-gateway" "T" (compactEscape ['\x7b', '\x7d']) none [])
    (by rfl)

/-! ### C10 -/

/-- C10 is false as stated: a request whose non-empty body is not valid JSON
(here the five bytes of "hello") is not forwarded at all — the gateway's
Marshal fails and the handler answers 500 before any POST is built. -/
theorem c10_counterexample :
    handleRequest demoGateway "GET" "/status" "hello".data [] "T" =
      .forwarded .internalError := by
  decide

/-- C10 (amended): every inbound request on a path other than /health, with
any method, whose body is empty or valid JSON is forwarded as a POST to the
same path carrying the signed JSON envelope, the empty body having become
the object of two bytes; a request whose body fails to marshal is answered
500 and not forwarded. -/
theorem c10_forwarding (gw : APIGateway) (method path : String) (body : Chars)
    (headers : List (String × String)) (now : String) (payload : Chars)
    (hpath : path ≠ "/health")
    (h : goMarshalServiceRequest
        { serviceID := gw.serviceID, timestamp := now, data := normBody body,
          signature := none, headers := headers } = some payload) :
    handleRequest gw method path body headers now =
        .forwarded (.backendPost path
          (renderServiceRequest gw.serviceID now (compactEscape (normBody body))
            (some (gw.dilithiumKeyPair.Sign (toBytes payload))) headers)) ∧
      normBody [] = ['\x7b', '\x7d'] := by
  refine ⟨?_, rfl⟩
  have h' := h
  simp only [goMarshalServiceRequest] at h'
  by_cases hg : jsonValid (compactEscape (normBody body)) = true
  · rw [if_pos hg] at h'
    unfold handleRequest
    rw [if_neg hpath]
    simp only [forwardToBackend]
    rw [h]
    simp only [goMarshalServiceRequest, hg]
    simp [Option.getD]
  · rw [if_neg hg] at h'
    exact absurd h' (by simp)

/-- C10 (witness): the amended forwarding at the empty-bodied GET of
/status. -/
theorem c10_witness :
    handleRequest demoGateway "GET" "/status" [] [] "T" =
      .forwarded (.backendPost "/status"
        (renderServiceRequest demoGateway.serviceID "T" (compactEscape (normBody []))
          (some (demoGateway.dilithiumKeyPair.Sign (toBytes
            (renderServiceRequest demoGateway.serviceID "T" (compactEscape (normBody []))
              none [])))) [])) :=
  (c10_forwarding demoGateway "GET" "/status" [] [] "T"
    (renderServiceRequest demoGateway.serviceID "T" (compactEscape (normBody [])) none [])
    (by decide) (by rfl)).1

/-! ### C2 -/

/-- C2: a sender that was never registered is rejected as Unauthorized
regardless of its signature: the registry's key exchange answers 401 whenever
the serviceID is absent, before the signature is consulted, and the backend —
whose cache misses for the unknown sender — fails key resolution with the
registry's 404, so verifyRequest errors and the handler answers 401. -/
theorem c2_unknown_sender_rejected (as : AuthService) (request : KeyExchangeRequest)
    (now : String) (seed : Nat) (bs : BackendService) (sreq : ServiceRequest)
    (bnow : String)
    (hreg : mapLookup as.serviceRegistry request.serviceID = none)
    (hcache : mapLookup bs.publicKeyCache sreq.serviceID = none)
    (hreg2 : mapLookup as.serviceRegistry sreq.serviceID = none) :
    keyExchange as request now seed = .unauthorizedNotRegistered ∧
      backendVerifyRequest bs as sreq bnow =
        (some (.keyResolution (.fetchStatus 404)), bs) ∧
      processEcho bs as sreq bnow = (.unauthorized, bs) := by
  have h1 : keyExchange as request now seed = .unauthorizedNotRegistered := by
    simp only [keyExchange, hreg]
  have hk : backendGetServicePublicKey bs as sreq.serviceID bnow =
      .error (.fetchStatus 404) := by
    simp only [backendGetServicePublicKey, hcache, getPublicKey, hreg2]
  have h2 : backendVerifyRequest bs as sreq bnow =
      (some (.keyResolution (.fetchStatus 404)), bs) := by
    simp only [backendVerifyRequest, hk]
  refine ⟨h1, h2, ?_⟩
  simp only [processEcho, h2]

/-- A registry with nothing registered. -/
def emptyAuth : AuthService :=
  { dilithiumKeyPair := { publicKey := 0, privateKey := 0 },
    kyberKeyPair := { publicKey := 10, privateKey := 10 },
    serviceRegistry := [], serviceID := "auth-service" }

/-- A backend with an empty key cache and counter zero. -/
def emptyBackend : BackendService :=
  { dilithiumKeyPair := { publicKey := 4, privateKey := 4 },
    kyberKeyPair := { publicKey := 6, privateKey := 6 },
    serviceID := "backend-service", publicKeyCache := [], requestCounter := 0 }

/-- A key-exchange request from the never-registered sender svc-ghost whose
signature is a perfectly well-formed signature (by key 5) of the canonical
request bytes. -/
def ghostKXRequest : KeyExchangeRequest :=
  { serviceID := "svc-ghost", kyberPublicKey := kyber768PubBytes 9, timestamp := "T",
    signature :=
      mode3Sig 5 (toBytes (renderKeyExchangeFields "svc-ghost" (kyber768PubBytes 9) "T")) }

/-- A service request from the never-registered sender svc-ghost. -/
def ghostServiceRequest : ServiceRequest :=
  { serviceID := "svc-ghost", timestamp := "T", data := ['\x7b', '\x7d'],
    signature := some (mode3Sig 5 (toBytes
      (renderServiceRequest "svc-ghost" "T" (compactEscape ['\x7b', '\x7d']) none []))),
    headers := [] }

/-- C2 (witness): the rejections at the concrete never-registered sender. -/
theorem c2_witness :
    keyExchange emptyAuth ghostKXRequest "T" 3 = .unauthorizedNotRegistered ∧
      backendVerifyRequest emptyBackend emptyAuth ghostServiceRequest "T" =
        (some (.keyResolution (.fetchStatus 404)), emptyBackend) ∧
      processEcho emptyBackend emptyAuth ghostServiceRequest "T" =
        (.unauthorized, emptyBackend) :=
  c2_unknown_sender_rejected emptyAuth ghostKXRequest "T" 3 emptyBackend
    ghostServiceRequest "T" rfl rfl rfl

/-! ### C7 -/

theorem backendGetServicePublicKey_counter {bs : BackendService} {as : AuthService}
    {serviceID now : String} {pk : Bytes} {bs1 : BackendService}
    (h : backendGetServicePublicKey bs as serviceID now = .ok (pk, bs1)) :
    bs1.requestCounter = bs.requestCounter := by
  simp only [backendGetServicePublicKey] at h
  split at h
  · simp only [Except.ok.injEq, Prod.mk.injEq] at h
    rw [← h.2]
  · split at h
    · simp at h
    · split at h
      · simp at h
      · simp only [Except.ok.injEq, Prod.mk.injEq] at h
        rw [← h.2]

theorem backendVerifyRequest_counter (bs : BackendService) (as : AuthService)
    (request : ServiceRequest) (now : String) :
    (backendVerifyRequest bs as request now).2.requestCounter = bs.requestCounter := by
  unfold backendVerifyRequest
  split
  · rfl
  · rename_i publicKey bs1 heq
    have hc := backendGetServicePublicKey_counter heq
    split
    · exact hc
    · split
      · exact hc
      · exact hc

/-- C7: when verification of an inbound request fails, both backend handlers
answer Unauthorized with the request counter untouched and produce no signed
response, and the counter is incremented exactly when verifyRequest
succeeds. -/
theorem c7_no_side_effects_on_failure (bs : BackendService) (as : AuthService)
    (request : ServiceRequest) (now : String) (res : Option VerifyRequestError)
    (bs1 : BackendService)
    (h : backendVerifyRequest bs as request now = (res, bs1)) :
    (res.isSome →
        processEcho bs as request now = (.unauthorized, bs1) ∧
          processData bs as request now = (.unauthorized, bs1) ∧
          bs1.requestCounter = bs.requestCounter) ∧
      (res = none →
        (processEcho bs as request now).2.requestCounter = bs.requestCounter + 1 ∧
          (processData bs as request now).2.requestCounter = bs.requestCounter + 1) := by
  have hc : bs1.requestCounter = bs.requestCounter := by
    have hall := backendVerifyRequest_counter bs as request now
    rw [h] at hall
    exact hall
  constructor
  · intro hsome
    obtain ⟨e, rfl⟩ := Option.isSome_iff_exists.mp hsome
    refine ⟨?_, ?_, hc⟩
    · simp only [processEcho, h]
    · simp only [processData, h]
  · rintro rfl
    constructor
    · simp only [processEcho, h]
      omega
    · simp only [processData, h]
      omega

/-- A backend whose cache already holds the gateway's public key. -/
def demoBackend : BackendService :=
  { dilithiumKeyPair := { publicKey := 4, privateKey := 4 },
    kyberKeyPair := { publicKey := 6, privateKey := 6 },
    serviceID := "backend-service",
    publicKeyCache := [("api-gateway", mode3PubBytes 3)],
    requestCounter := 0 }

/-- The canonical bytes of the demo gateway request. -/
def demoCanonicalPayload : Chars :=
  renderServiceRequest "api-gateway" "T" (compactEscape ['\x7b', '\x7d']) none []

/-- A gateway request that verifies against the cached key 3. -/
def demoVerifiedRequest : ServiceRequest :=
  { serviceID := "api-gateway", timestamp := "T", data := ['\x7b', '\x7d'],
    signature := some (mode3Sig 3 (toBytes demoCanonicalPayload)), headers := [] }

/-- The demo request verifies at the backend: the cache holds key 3 and the
signature is key 3's signature of the recomputed canonical bytes. -/
theorem demoVerifiedRequest_verifies :
    backendVerifyRequest demoBackend emptyAuth demoVerifiedRequest "T" =
      (none, demoBackend) := by
  unfold backendVerifyRequest
  rw [show demoVerifiedRequest.serviceID = "api-gateway" from rfl]
  rw [show backendGetServicePublicKey demoBackend emptyAuth "api-gateway" "T" =
      .ok (mode3PubBytes 3, demoBackend) from rfl]
  simp only []
  rw [show verifyCanonicalBytes demoVerifiedRequest = some demoCanonicalPayload from rfl]
  simp only []
  rw [show demoVerifiedRequest.signature.getD [] =
      mode3Sig 3 (toBytes demoCanonicalPayload) from rfl]
  rw [VerifyDilithiumSignature_pubBytes, if_pos rfl]

/-- C7 (witness): the failure half at the unknown sender, and the success
half at a request that verifies against the cached key. -/
theorem c7_witness :
    (processEcho emptyBackend emptyAuth ghostServiceRequest "T" =
        (.unauthorized, emptyBackend) ∧
      processData emptyBackend emptyAuth ghostServiceRequest "T" =
        (.unauthorized, emptyBackend) ∧
      emptyBackend.requestCounter = emptyBackend.requestCounter) ∧
      ((processEcho demoBackend emptyAuth demoVerifiedRequest "T").2.requestCounter =
          demoBackend.requestCounter + 1 ∧
        (processData demoBackend emptyAuth demoVerifiedRequest "T").2.requestCounter =
          demoBackend.requestCounter + 1) :=
  ⟨(c7_no_side_effects_on_failure emptyBackend emptyAuth ghostServiceRequest "T"
      (some (.keyResolution (.fetchStatus 404))) emptyBackend rfl).1 rfl,
    (c7_no_side_effects_on_failure demoBackend emptyAuth demoVerifiedRequest "T"
      none demoBackend demoVerifiedRequest_verifies).2 rfl⟩

/-- The gateway decoder inverts the registry's base64 wire form exactly. -/
theorem DeserializePublicKeyFromJSON_decode (serviceID now : String) (key : Bytes)
    (hbytes : ∀ x ∈ key, x < 256) :
    DeserializePublicKeyFromJSON (decodePublicKeyData serviceID key now) = .ok key := by
  unfold DeserializePublicKeyFromJSON decodePublicKeyData
  rw [show mapLookup [("public_key", JVal.str (base64Encode key)),
      ("service_id", JVal.str serviceID.data), ("timestamp", JVal.str now.data)]
      "public_key" = some (JVal.str (base64Encode key)) from rfl]
  simp only []
  rw [base64Decode_base64Encode key hbytes]

/-! ### C8 -/

/-- The registry after svc-a, first registered with key 1, re-registers with
key 2. -/
def rotatedAuth : AuthService :=
  registerService
    { dilithiumKeyPair := { publicKey := 0, privateKey := 0 },
      kyberKeyPair := { publicKey := 10, privateKey := 10 },
      serviceRegistry := [("svc-a", mode3PubBytes 1)],
      serviceID := "auth-service" }
    { serviceID := "svc-a", publicKey := mode3PubBytes 2 }

/-- A backend whose cache still holds svc-a's old key 1. -/
def staleBackend : BackendService :=
  { dilithiumKeyPair := { publicKey := 4, privateKey := 4 },
    kyberKeyPair := { publicKey := 6, privateKey := 6 },
    serviceID := "backend-service",
    publicKeyCache := [("svc-a", mode3PubBytes 1)],
    requestCounter := 0 }

/-- The canonical bytes of the demo svc-a request. -/
def svcACanonicalPayload : Chars :=
  renderServiceRequest "svc-a" "T" (compactEscape ['\x7b', '\x7d']) none []

/-- A svc-a request correctly signed with the new key 2. -/
def newKeySignedRequest : ServiceRequest :=
  { serviceID := "svc-a", timestamp := "T", data := ['\x7b', '\x7d'],
    signature := some (mode3Sig 2 (toBytes svcACanonicalPayload)), headers := [] }

/-- C8 is false as stated: after re-registration the registry's map holds the
new key 2, but the backend whose cache holds the old key 1 still resolves
key 1, and a request correctly signed with the new authoritative key is
rejected as an invalid signature there. -/
theorem c8_counterexample :
    mapLookup rotatedAuth.serviceRegistry "svc-a" = some (mode3PubBytes 2) ∧
      backendGetServicePublicKey staleBackend rotatedAuth "svc-a" "T" =
        .ok (mode3PubBytes 1, staleBackend) ∧
      (backendVerifyRequest staleBackend rotatedAuth newKeySignedRequest "T").1 =
        some (.signatureInvalid .invalidSignature) := by
  refine ⟨rfl, rfl, ?_⟩
  have hne : mode3Sig 2 (toBytes svcACanonicalPayload) ≠
      mode3Sig 1 (toBytes svcACanonicalPayload) := fun hcontra =>
    absurd (mode3Sig_inj_key hcontra) (by decide)
  unfold backendVerifyRequest
  rw [show newKeySignedRequest.serviceID = "svc-a" from rfl]
  rw [show backendGetServicePublicKey staleBackend rotatedAuth "svc-a" "T" =
      .ok (mode3PubBytes 1, staleBackend) from rfl]
  simp only []
  rw [show verifyCanonicalBytes newKeySignedRequest = some svcACanonicalPayload from rfl]
  simp only []
  rw [show newKeySignedRequest.signature.getD [] =
      mode3Sig 2 (toBytes svcACanonicalPayload) from rfl]
  rw [VerifyDilithiumSignature_pubBytes, if_neg hne]

/-- C8 (amended): after `Register(serviceID, newKey)` the registry holds the
new key (last write wins) and a party with no cached entry resolves exactly
the new key via the gateway decoder, but a party whose PublicKeyCache already
holds the old key continues to resolve the old key, so its verifications
still run against the old key until restart. -/
theorem c8_rotation (as : AuthService) (kp : ServiceKeyPair) (gw : APIGateway)
    (bs : BackendService) (now : String) (oldKey : Bytes)
    (hbytes : ∀ x ∈ kp.publicKey, x < 256)
    (hgwcache : mapLookup gw.publicKeyCache kp.serviceID = none)
    (hbscache : mapLookup bs.publicKeyCache kp.serviceID = some oldKey) :
    mapLookup (registerService as kp).serviceRegistry kp.serviceID = some kp.publicKey ∧
      gatewayGetServicePublicKey gw (registerService as kp) kp.serviceID now =
        .ok (kp.publicKey,
          { gw with
            publicKeyCache := mapInsert gw.publicKeyCache kp.serviceID kp.publicKey }) ∧
      backendGetServicePublicKey bs (registerService as kp) kp.serviceID now =
        .ok (oldKey, bs) := by
  have h1 : mapLookup (registerService as kp).serviceRegistry kp.serviceID =
      some kp.publicKey := by
    simp only [registerService]
    exact mapLookup_mapInsert_self _ _ _
  refine ⟨h1, ?_, ?_⟩
  · simp only [gatewayGetServicePublicKey, hgwcache, getPublicKey, h1,
      DeserializePublicKeyFromJSON_decode kp.serviceID now kp.publicKey hbytes]
  · simp only [backendGetServicePublicKey, hbscache]

/-- C8 (witness): rotation to the three-byte key at a cache-less gateway and
a stale backend. -/
theorem c8_witness :
    mapLookup (registerService emptyAuth
        { serviceID := "svc-a", publicKey := [1, 2, 3] }).serviceRegistry "svc-a" =
      some [1, 2, 3] ∧
      gatewayGetServicePublicKey demoGateway
          (registerService emptyAuth { serviceID := "svc-a", publicKey := [1, 2, 3] })
          "svc-a" "T" =
        .ok ([1, 2, 3],
          { demoGateway with
            publicKeyCache := mapInsert demoGateway.publicKeyCache "svc-a" [1, 2, 3] }) ∧
      backendGetServicePublicKey staleBackend
          (registerService emptyAuth { serviceID := "svc-a", publicKey := [1, 2, 3] })
          "svc-a" "T" =
        .ok (mode3PubBytes 1, staleBackend) :=
  c8_rotation emptyAuth { serviceID := "svc-a", publicKey := [1, 2, 3] } demoGateway
    staleBackend "T" (mode3PubBytes 1) (by decide) rfl rfl

/-! ### C6 -/

/-- C6 is false as stated: for the key bytes the registry serves for svc-a,
the gateway's decoder returns the original bytes from the base64-string wire
form, but the backend's inline decoder rejects that very form as an invalid
format — the two consumers do not understand the encoding identically. -/
theorem c6_counterexample :
    DeserializePublicKeyFromJSON (decodePublicKeyData "svc-a" [1, 2, 3] "T") =
        .ok [1, 2, 3] ∧
      backendDecodePublicKey (decodePublicKeyData "svc-a" [1, 2, 3] "T") =
        .error .invalidPublicKeyFormat := by
  constructor
  · exact DeserializePublicKeyFromJSON_decode "svc-a" "T" [1, 2, 3] (by decide)
  · rfl

/-- C6 (amended): the registry serves every key as a base64 string; the
gateway's decoder inverts that encoding exactly and returns the original
bytes, while the backend's inline decoder accepts only the JSON-array shape
and fails with a format error on everything the registry serves. -/
theorem c6_decoders_disagree (serviceID now : String) (key : Bytes)
    (hbytes : ∀ x ∈ key, x < 256) :
    DeserializePublicKeyFromJSON (decodePublicKeyData serviceID key now) = .ok key ∧
      backendDecodePublicKey (decodePublicKeyData serviceID key now) =
        .error .invalidPublicKeyFormat := by
  constructor
  · exact DeserializePublicKeyFromJSON_decode serviceID now key hbytes
  · rfl

/-- C6 (witness): the amended disagreement at the one-byte key. -/
theorem c6_witness :
    DeserializePublicKeyFromJSON (decodePublicKeyData "svc-b" [7] "T") = .ok [7] ∧
      backendDecodePublicKey (decodePublicKeyData "svc-b" [7] "T") =
        .error .invalidPublicKeyFormat :=
  c6_decoders_disagree "svc-b" "T" [7] (by decide)

end QuantumSafeMesh
